import Mathlib

/-
Verification development for the 3dmr query/filter engine and binary-asset
validation pipeline.

Shallow embedding of:
  * mainapp/api.py       — pagination, tag/category/author/title/range lookups,
                           the full-search endpoint with projection;
  * mainapp/utils/model_validator.py — the GLB validation pipeline.

Conventions of the embedding:
  * The Django record store is a `List AssetRecord` in the store's iteration
    order; `QuerySet.filter` is `List.filter` (which preserves that order) and
    `order_by('model_id')` is a stable insertion sort on the identifier.
  * Python floats in the geographic code are modelled as real numbers; record
    coordinates are rationals (every stored float is rational) coerced into ℝ
    for the bounding-box comparisons.
  * `admin(request)` (defined outside the embedded files) is the caller
    privilege flag, passed as a `Bool` parameter.
  * Django's `Paginator`/`EmptyPage` behaviour is embedded in
    `paginator_page`: page numbers below 1 or beyond the last page give the
    empty page, as `api_paginate` catches `EmptyPage`.
  * The source of model_validator.py contains unresolved git merge conflict
    markers; the embedding follows the committed ("Updated upstream") side,
    whose temp file is a `with tempfile.NamedTemporaryFile()` block: the file
    is created on block entry and deleted on every block exit.
  * Python's math.asin is partial: outside [-1, 1] it raises
    ValueError: math domain error (reachable in range_filter for negative
    distances). Real.arcsin is total, so `range_box`/`range_filter` only give
    the executed value when `asin_arg_ok` holds; `range_filter_crashes` and
    `search_range_checked` model the ValueError path explicitly.
-/

/-- One stored, versioned 3D-model entry (mainapp.models.Model as used by
api.py). `location` is either fully present or absent. -/
structure AssetRecord where
  model_id : Nat
  revision : Nat
  latest : Bool
  title : String
  tags : List (String × String)
  categories : List String
  author : String
  location : Option (ℚ × ℚ)
  is_hidden : Bool
deriving DecidableEq

/-- api.py line 14: RESULTS_PER_API_CALL = 20. -/
def RESULTS_PER_API_CALL : Nat := 20

/-- Django Paginator.num_pages with orphans = 0 and allow_empty_first_page:
ceil(max(1, count) / per_page). -/
def num_pages (count : Nat) : Nat :=
  (max 1 count + RESULTS_PER_API_CALL - 1) / RESULTS_PER_API_CALL

/-- Django paginator.page(page_id) with the EmptyPage exception mapped to the
empty list (api.py lines 20-23 catch EmptyPage and use []). -/
def paginator_page {α : Type} (l : List α) (page_id : Int) : List α :=
  if page_id < 1 then []
  else if (num_pages l.length : Int) < page_id then []
  else (l.drop ((page_id.toNat - 1) * RESULTS_PER_API_CALL)).take RESULTS_PER_API_CALL

/-- api.py lines 17-27: paginate and reduce each record to its identifier. -/
def api_paginate (models : List AssetRecord) (page_id : Int) : List Nat :=
  (paginator_page models page_id).map (fun m => m.model_id)

/-- Ordering used by order_by('model_id'). -/
def idLe (a b : AssetRecord) : Prop := a.model_id ≤ b.model_id

instance : DecidableRel idLe := fun a b => Nat.decLe a.model_id b.model_id

instance : IsTotal AssetRecord idLe := ⟨fun a b => Nat.le_total a.model_id b.model_id⟩

instance : IsTrans AssetRecord idLe := ⟨fun _ _ _ h h2 => Nat.le_trans h h2⟩

/-- QuerySet.order_by('model_id'): a stable sort by identifier ascending. -/
def order_by_model_id (l : List AssetRecord) : List AssetRecord :=
  List.insertionSort idLe l

/-- Django tags__contains = ((key, value)) membership in the record's tag map. -/
def tag_contains (m : AssetRecord) (key value : String) : Bool :=
  m.tags.contains (key, value)

/-- Django categories__name = category membership. -/
def in_category (m : AssetRecord) (c : String) : Bool :=
  m.categories.contains c

/-- Bool test that `sub` starts the list `l`. -/
def charsLeading : List Char → List Char → Bool
  | [], _ => true
  | _ :: _, [] => false
  | c :: cs, d :: ds => c == d && charsLeading cs ds

/-- Bool test that `sub` occurs contiguously inside the second list. -/
def charsOccur (sub : List Char) : List Char → Bool
  | [] => charsLeading sub []
  | d :: ds => charsLeading sub (d :: ds) || charsOccur sub ds

/-- Python str.lower, characterwise on the string's characters. -/
def lower_chars (l : List Char) : List Char := l.map Char.toLower

/-- Python str.endswith on character lists. -/
def chars_ends_with (s post : List Char) : Bool := charsLeading post.reverse s.reverse

/-- Django title__icontains: case-insensitive substring test. -/
def icontains (s sub : String) : Bool :=
  charsOccur (lower_chars sub.data) (lower_chars s.data)

/-- Pattern shared by every view (e.g. api.py lines 108-109): non-privileged
callers get an extra is_hidden=False filter. -/
def visible_filter (is_admin : Bool) (models : List AssetRecord) : List AssetRecord :=
  if is_admin then models else models.filter (fun m => !m.is_hidden)

/-- api.py lines 101-111 (lookup_tag), after get_kv has parsed the tag into a
(key, value) pair: filter latest + tag, order by model_id, hide hidden. -/
def lookup_tag_models (store : List AssetRecord) (is_admin : Bool) (key value : String) :
    List AssetRecord :=
  visible_filter is_admin
    (order_by_model_id (store.filter (fun m => m.latest && tag_contains m key value)))

/-- api.py lines 113-120 (lookup_category): filter latest + category, hide
hidden; the source applies no order_by here. -/
def lookup_category_models (store : List AssetRecord) (is_admin : Bool) (category : String) :
    List AssetRecord :=
  visible_filter is_admin (store.filter (fun m => m.latest && in_category m category))

/-- api.py lines 122-130 (lookup_author): the resolved user's records with
latest=True, hide hidden; no order_by in the source. -/
def lookup_author_models (store : List AssetRecord) (is_admin : Bool) (uid : String) :
    List AssetRecord :=
  visible_filter is_admin (store.filter (fun m => m.author == uid && m.latest))

/-- api.py lines 191-198 (search_title): filter latest + title icontains, hide
hidden; no order_by in the source. -/
def search_title_models (store : List AssetRecord) (is_admin : Bool) (title : String) :
    List AssetRecord :=
  visible_filter is_admin (store.filter (fun m => m.latest && icontains m.title title))

/-- Paginated response of lookup_tag. -/
def lookup_tag (store : List AssetRecord) (is_admin : Bool) (key value : String)
    (page_id : Int) : List Nat :=
  api_paginate (lookup_tag_models store is_admin key value) page_id

/-- Paginated response of lookup_category. -/
def lookup_category (store : List AssetRecord) (is_admin : Bool) (category : String)
    (page_id : Int) : List Nat :=
  api_paginate (lookup_category_models store is_admin category) page_id

/-- Paginated response of lookup_author. -/
def lookup_author (store : List AssetRecord) (is_admin : Bool) (uid : String)
    (page_id : Int) : List Nat :=
  api_paginate (lookup_author_models store is_admin uid) page_id

/-- Paginated response of search_title. -/
def search_title (store : List AssetRecord) (is_admin : Bool) (title : String)
    (page_id : Int) : List Nat :=
  api_paginate (search_title_models store is_admin title) page_id

/-! ## The GLB validation pipeline (mainapp/utils/model_validator.py) -/

/-- The uploaded file: its name and its byte content. -/
structure UploadFile where
  name : String
  content : List UInt8
deriving DecidableEq

/-- The magic signature b"glTF". -/
def GLB_MAGIC : List UInt8 := [103, 108, 84, 70]

/-- One entry of issues.messages in the validator's JSON report. The pointer
key may be absent (model_validator.py uses message.get("pointer", "N/A")). -/
structure ReportMessage where
  severity : Int
  message : String
  pointer : Option String
deriving DecidableEq

/-- The info object of the report; a missing key is a KeyError in the source. -/
structure ReportInfo where
  totalVertexCount : Option Int
  totalTriangleCount : Option Int
deriving DecidableEq

/-- The issues object of the report; a missing key is a KeyError. -/
structure ReportIssues where
  numErrors : Option Int
  messages : Option (List ReportMessage)
deriving DecidableEq

/-- The parsed validator report; a missing top-level key is a KeyError. -/
structure ValidatorReport where
  info : Option ReportInfo
  issues : Option ReportIssues
deriving DecidableEq

/-- What the external gltf-validator invocation observably does: the
executable is missing (FileNotFoundError), produces unparseable JSON, or
produces a parsed report. -/
inductive ValidatorResponse
  | unavailable
  | invalidJson
  | report (out : ValidatorReport)
deriving DecidableEq

/-- The outcome of validate_glb_file: fall through and return None (valid),
return the collected error list, or raise ValidationError with a message. -/
inductive GlbVerdict
  | validFile
  | invalidList (msgs : List (String × String))
  | validationError (msg : String)
deriving DecidableEq

/-- The observable trace of one pipeline run: its verdict plus whether the
transient file was created, whether it was removed by the time the function
exited, and whether the external validator process was invoked. -/
structure PipelineTrace where
  verdict : GlbVerdict
  tempFileCreated : Bool
  tempFileRemoved : Bool
  validatorInvoked : Bool
deriving DecidableEq

/-- model_validator.py lines 75-83: the severity-0 issues as
(message, pointer-or-"N/A") pairs, in report order. -/
def error_messages (l : List ReportMessage) : List (String × String) :=
  (l.filter (fun m => m.severity == 0)).map (fun m => (m.message, m.pointer.getD "N/A"))

/-- model_validator.py lines 67-87: the geometry check, the error aggregation
and the KeyError handler ("Internal server error."). Python's `or` short
circuits, so totalTriangleCount is only read when totalVertexCount ≥ 3. -/
def process_report (out : ValidatorReport) : GlbVerdict :=
  match out.info with
  | none => .validationError "Internal server error."
  | some info =>
    match info.totalVertexCount with
    | none => .validationError "Internal server error."
    | some v =>
      if v < 3 then .validationError "GLB file must have some valid shape."
      else
        match info.totalTriangleCount with
        | none => .validationError "Internal server error."
        | some t =>
          if t < 1 then .validationError "GLB file must have some valid shape."
          else
            match out.issues with
            | none => .validationError "Internal server error."
            | some issues =>
              match issues.numErrors with
              | none => .validationError "Internal server error."
              | some n =>
                if n > 0 then
                  match issues.messages with
                  | none => .validationError "Internal server error."
                  | some msgs => .invalidList (error_messages msgs)
                else .validFile

/-- model_validator.py validate_glb_file. The extension and magic checks come
before the `with tempfile.NamedTemporaryFile(...)` block, so on those paths no
temp file exists and the validator is not run. Inside the block the temp file
exists and `NamedTemporaryFile` (delete=True) removes it on every exit of the
block — normal return, early return or a raised exception — which the trace
records as tempFileRemoved. -/
def validate_glb_file (file : UploadFile) (validator : ValidatorResponse) : PipelineTrace :=
  if !(chars_ends_with (lower_chars file.name.data) ".glb".data) then
    { verdict := .validationError "Only .glb files are supported.",
      tempFileCreated := false, tempFileRemoved := false, validatorInvoked := false }
  else if file.content.take 4 ≠ GLB_MAGIC then
    { verdict := .validationError "The uploaded file does not appear to be a valid GLB file.",
      tempFileCreated := false, tempFileRemoved := false, validatorInvoked := false }
  else
    match validator with
    | .unavailable =>
        { verdict := .validationError "Internal server error.",
          tempFileCreated := true, tempFileRemoved := true, validatorInvoked := true }
    | .invalidJson =>
        { verdict := .validationError "Internal server error.",
          tempFileCreated := true, tempFileRemoved := true, validatorInvoked := true }
    | .report out =>
        { verdict := process_report out,
          tempFileCreated := true, tempFileRemoved := true, validatorInvoked := true }

/-! ## Geographic bounding box and range filter (api.py lines 132-189) -/

/-- api.py line 137: PLANETARY_RADIUS = 6371e3 meters. -/
noncomputable def PLANETARY_RADIUS : ℝ := 6371e3

/-- Python math.radians. -/
noncomputable def math_radians (x : ℝ) : ℝ := x * (Real.pi / 180)

/-- Python math.degrees. -/
noncomputable def math_degrees (x : ℝ) : ℝ := x * (180 / Real.pi)

/-- api.py line 138: angular_radius = distance / PLANETARY_RADIUS. -/
noncomputable def angular_radius (distance : ℝ) : ℝ := distance / PLANETARY_RADIUS

/-- api.py line 149: d_longitude = asin(sin(angular_radius)/cos(latitude)).
Python's math.asin raises ValueError when its argument leaves [-1, 1], while
Real.arcsin clamps; this definition is therefore only the value the source
computes when `asin_arg_ok` holds for the argument. The ValueError path is
modelled by `range_filter_crashes` and `search_range_checked` below. -/
noncomputable def d_longitude (latitude angular : ℝ) : ℝ :=
  Real.arcsin (Real.sin angular / Real.cos latitude)

/-- api.py lines 152-153: if min_longitude < -pi it is shifted up by 2*pi. -/
noncomputable def wrap_min (x : ℝ) : ℝ := if x < -Real.pi then x + 2 * Real.pi else x

/-- api.py lines 156-157: if max_longitude > pi it is shifted down by 2*pi. -/
noncomputable def wrap_max (x : ℝ) : ℝ := if x > Real.pi then x - 2 * Real.pi else x

/-- The four degree bounds api.py lines 132-168 compute before filtering. -/
structure GeoBox where
  min_latitude : ℝ
  max_latitude : ℝ
  min_longitude : ℝ
  max_longitude : ℝ

/-- api.py lines 132-168: the bounding box of range_filter, in degrees. On
the non-pole branch this is the executed box only when math.asin's argument
stays in [-1, 1] (`asin_arg_ok`); otherwise the source raises ValueError
there, which `range_filter_crashes` and `search_range_checked` capture. -/
noncomputable def range_box (latitude longitude distance : ℝ) : GeoBox :=
  if math_radians latitude - angular_radius distance > -(Real.pi / 2) ∧
      math_radians latitude + angular_radius distance < Real.pi / 2 then
    { min_latitude := math_degrees (math_radians latitude - angular_radius distance)
      max_latitude := math_degrees (math_radians latitude + angular_radius distance)
      min_longitude := math_degrees (wrap_min (math_radians longitude -
        d_longitude (math_radians latitude) (angular_radius distance)))
      max_longitude := math_degrees (wrap_max (math_radians longitude +
        d_longitude (math_radians latitude) (angular_radius distance))) }
  else
    { min_latitude := math_degrees (max (math_radians latitude - angular_radius distance)
        (-(Real.pi / 2)))
      max_latitude := math_degrees (min (math_radians latitude + angular_radius distance)
        (Real.pi / 2))
      min_longitude := math_degrees (-Real.pi)
      max_longitude := math_degrees Real.pi }

/-- The conjunctive gte/lte test api.py lines 170-174 apply: a record with no
location fails the comparisons (SQL NULL), one with a location must lie in the
single latitude range and the single longitude range. -/
def in_box (b : GeoBox) (m : AssetRecord) : Prop :=
  match m.location with
  | some loc =>
      b.min_latitude ≤ (loc.1 : ℝ) ∧ (loc.1 : ℝ) ≤ b.max_latitude ∧
      b.min_longitude ≤ (loc.2 : ℝ) ∧ (loc.2 : ℝ) ≤ b.max_longitude
  | none => False

open Classical in
/-- api.py lines 132-174: range_filter. -/
noncomputable def range_filter (models : List AssetRecord) (latitude longitude distance : ℝ) :
    List AssetRecord :=
  models.filter (fun m => decide (in_box (range_box latitude longitude distance) m))

/-- api.py lines 176-189 (search_range): latest filter, hidden filter, then
range_filter; no order_by and no argument validation appear in the source. -/
noncomputable def search_range_models (store : List AssetRecord) (is_admin : Bool)
    (latitude longitude distance : ℝ) : List AssetRecord :=
  range_filter (visible_filter is_admin (store.filter (fun m => m.latest)))
    latitude longitude distance

/-- Paginated response of search_range, on the runs where math.asin does not
raise (see `search_range_checked` for the run including the ValueError
path). -/
noncomputable def search_range (store : List AssetRecord) (is_admin : Bool)
    (latitude longitude distance : ℝ) (page_id : Int) : List Nat :=
  api_paginate (search_range_models store is_admin latitude longitude distance) page_id

/-- The domain of Python's math.asin: outside [-1, 1] it raises
ValueError: math domain error; inside the domain it agrees with
Real.arcsin. -/
def asin_arg_ok (x : ℝ) : Prop := -1 ≤ x ∧ x ≤ 1

/-- The argument api.py line 149 passes to math.asin:
sin(angular_radius)/cos(latitude). -/
noncomputable def range_asin_arg (latitude distance : ℝ) : ℝ :=
  Real.sin (angular_radius distance) / Real.cos (math_radians latitude)

/-- api.py line 148's branch condition: the latitude band stays strictly
inside (-pi/2, pi/2), so math.asin is evaluated. -/
def non_pole_branch (latitude distance : ℝ) : Prop :=
  math_radians latitude - angular_radius distance > -(Real.pi / 2) ∧
  math_radians latitude + angular_radius distance < Real.pi / 2

/-- range_filter raises an uncaught ValueError exactly when the non-pole
branch is taken and math.asin's argument leaves [-1, 1] (possible only for a
negative distance, since sin(angular_radius) then exceeds cos(latitude) in
magnitude near the poles). -/
def range_filter_crashes (latitude distance : ℝ) : Prop :=
  non_pole_branch latitude distance ∧ ¬ asin_arg_ok (range_asin_arg latitude distance)

open Classical in
/-- api.py lines 176-189 as actually executed: when range_filter evaluates
math.asin outside its domain, the view dies with the uncaught ValueError
(modelled as none — an HTTP 500, not any structured rejection); otherwise the
response is the ordinary paginated page. -/
noncomputable def search_range_checked (store : List AssetRecord) (is_admin : Bool)
    (latitude longitude distance : ℝ) (page_id : Int) : Option (List Nat) :=
  if range_filter_crashes latitude distance then none
  else some (search_range store is_admin latitude longitude distance page_id)

/-! ## Full search (api.py lines 200-287) -/

/-- The decoded JSON body of a full-search request, with Python's None as
`none`. `page` is int(data.get('page', 1)); `format` is the projection list. -/
structure SearchBody where
  author : Option String
  lat : Option ℝ
  lon : Option ℝ
  range : Option ℝ
  title : Option String
  tags : Option (List (String × String))
  categories : Option (List String)
  page : Int
  format : Option (List String)

/-- api.py lines 214-219 minus the existence check: `if data.get('author'):`
is Python truthiness, so None and "" both skip the filter. -/
def author_stage (author : Option String) (models : List AssetRecord) : List AssetRecord :=
  if author.getD "" ≠ "" then models.filter (fun m => m.author == author.getD "") else models

/-- api.py lines 221-227: the geo filter runs only when lat, lon and range are
all non-None. -/
noncomputable def geo_stage (lat lon dist : Option ℝ) (models : List AssetRecord) :
    List AssetRecord :=
  match lat, lon, dist with
  | some la, some lo, some d => range_filter models la lo d
  | _, _, _ => models

/-- api.py lines 229-231: `if title:` — None and "" both skip the filter. -/
def title_stage (title : Option String) (models : List AssetRecord) : List AssetRecord :=
  if title.getD "" ≠ "" then models.filter (fun m => icontains m.title (title.getD ""))
  else models

/-- api.py lines 233-236: one tags__contains filter per (key, value) pair;
`if tags:` skips an absent or empty mapping, which the fold also makes a
no-op. -/
def tags_stage (tags : Option (List (String × String))) (models : List AssetRecord) :
    List AssetRecord :=
  (tags.getD []).foldl (fun acc kv => acc.filter (fun m => tag_contains m kv.1 kv.2)) models

/-- api.py lines 238-241: one categories__name filter per requested name. -/
def categories_stage (categories : Option (List String)) (models : List AssetRecord) :
    List AssetRecord :=
  (categories.getD []).foldl (fun acc c => acc.filter (fun m => in_category m c)) models

/-- api.py lines 202-243: the matched records of search_full, sorted by
model_id, or the 'Author not found' rejection when a non-empty author uid does
not resolve (`users` is the set of registered social-auth uids). -/
noncomputable def search_full_models (store : List AssetRecord) (users : List String)
    (is_admin : Bool) (body : SearchBody) : Except String (List AssetRecord) :=
  if body.author.getD "" ≠ "" ∧ body.author.getD "" ∉ users then .error "Author not found"
  else
    .ok (order_by_model_id
      (categories_stage body.categories
        (tags_stage body.tags
          (title_stage body.title
            (geo_stage body.lat body.lon body.range
              (author_stage body.author
                (visible_filter is_admin (store.filter (fun m => m.latest)))))))))

/-- One projected cell of a result tuple (api.py lines 259-280). -/
inductive ProjValue
  | id (n : Nat)
  | num (q : ℚ)
  | str (s : String)
  | null
deriving DecidableEq

/-- api.py lines 262-278: one format string applied to one record; an unknown
string raises (none). A record without a location projects latitude and
longitude as None via the bare except. -/
def project_field (m : AssetRecord) (s : String) : Option ProjValue :=
  if s = "id" then some (.id m.model_id)
  else if s = "latitude" then
    some (match m.location with | some loc => .num loc.1 | none => .null)
  else if s = "longitude" then
    some (match m.location with | some loc => .num loc.2 | none => .null)
  else if s = "title" then some (.str m.title)
  else none

/-- api.py result(model): the output list built field by field; the first
unknown field name raises, aborting the whole tuple. -/
def collect_fields (m : AssetRecord) : List String → Option (List ProjValue)
  | [] => some []
  | s :: rest =>
    match project_field m s with
    | none => none
    | some v =>
      match collect_fields m rest with
      | none => none
      | some vs => some (v :: vs)

/-- api.py result(model): the whole tuple, or none if any field name raises. -/
def project_record (fmt : List String) (m : AssetRecord) : Option (List ProjValue) :=
  collect_fields m fmt

/-- api.py lines 282-285: the comprehension over the page; the first raise
aborts the whole list. -/
def project_page (fmt : List String) : List AssetRecord → Option (List (List ProjValue))
  | [] => some []
  | m :: rest =>
    match project_record fmt m with
    | none => none
    | some row =>
      match project_page fmt rest with
      | none => none
      | some rows => some (row :: rows)

/-- A search_full HTTP outcome: a 400 rejection, a list of identifiers, or a
list of projected tuples. -/
inductive ApiResponse
  | badRequest (msg : String)
  | ids (l : List Nat)
  | tuples (l : List (List ProjValue))
deriving DecidableEq

/-- api.py lines 200-287 (search_full), for a body that parsed as JSON:
no format (or an empty one) returns identifiers via api_paginate; otherwise
the page is projected, and any unknown format string yields the
'Invalid format specifier' rejection. -/
noncomputable def search_full (store : List AssetRecord) (users : List String)
    (is_admin : Bool) (body : SearchBody) : ApiResponse :=
  match search_full_models store users is_admin body with
  | .error e => .badRequest e
  | .ok models =>
    match body.format with
    | none => .ids (api_paginate models body.page)
    | some fmt =>
      if fmt = [] then .ids (api_paginate models body.page)
      else
        match project_page fmt (paginator_page models body.page) with
        | some rows => .tuples rows
        | none => .badRequest "Invalid format specifier"

/-! ## Concrete demonstration data -/

/-- A minimal record with identifier `i`. -/
def plainRec (i : Nat) : AssetRecord :=
  { model_id := i, revision := 1, latest := true, title := "", tags := [],
    categories := [], author := "", location := none, is_hidden := false }

/-- Twenty-five latest, visible records with identifiers 0..24. -/
def store25 : List AssetRecord := (List.range 25).map plainRec

/-- A well-formed GLB upload: .glb extension and the b"glTF" magic header. -/
def demoGlb : UploadFile := { name := "model.glb", content := [103, 108, 84, 70, 0, 0] }

/-- A severity-0 issue whose report omits the pointer key. -/
def demoMsgErr1 : ReportMessage := { severity := 0, message := "bad accessor", pointer := none }

/-- A non-error issue that must not be collected. -/
def demoMsgWarn : ReportMessage := { severity := 1, message := "warn", pointer := some "/w" }

/-- A second severity-0 issue with a pointer. -/
def demoMsgErr2 : ReportMessage :=
  { severity := 0, message := "bad image", pointer := some "/images/0" }

/-- A report with numErrors = 2 and two severity-0 messages among three. -/
def demoReportBad : ValidatorReport :=
  { info := some { totalVertexCount := some 8, totalTriangleCount := some 12 },
    issues := some { numErrors := some 2,
                     messages := some [demoMsgErr1, demoMsgWarn, demoMsgErr2] } }

/-- A report with numErrors = 0 (its messages key is never read). -/
def demoReportGood : ValidatorReport :=
  { info := some { totalVertexCount := some 8, totalTriangleCount := some 12 },
    issues := some { numErrors := some 0, messages := none } }

/-! ## C7: temp-file release on every exit path -/

/-- C7: on every exit path of validate_glb_file — valid, invalid, early
rejection, validator missing, unparseable or ill-shaped report — the transient
file is removed exactly when it was created: no terminal state leaves the
temporary file on disk. -/
theorem c7_temp_cleanup (file : UploadFile) (resp : ValidatorResponse) :
    (validate_glb_file file resp).tempFileRemoved =
      (validate_glb_file file resp).tempFileCreated := by
  unfold validate_glb_file
  split
  · rfl
  · split
    · rfl
    · cases resp <;> rfl

/-! ## C6: early rejection before any temp file or validator run -/

/-- C6: an upload whose name does not end in .glb, or whose first four bytes
are not b"glTF", is rejected immediately: no temp file is created, the
external validator is never invoked, and the verdict is one of the two
file-type ValidationErrors. -/
theorem c6_early_reject (file : UploadFile) (resp : ValidatorResponse)
    (h : chars_ends_with (lower_chars file.name.data) ".glb".data = false ∨
      file.content.take 4 ≠ GLB_MAGIC) :
    (validate_glb_file file resp).tempFileCreated = false ∧
    (validate_glb_file file resp).validatorInvoked = false ∧
    ((validate_glb_file file resp).verdict =
        .validationError "Only .glb files are supported." ∨
      (validate_glb_file file resp).verdict =
        .validationError "The uploaded file does not appear to be a valid GLB file.") := by
  by_cases hn : chars_ends_with (lower_chars file.name.data) ".glb".data = true
  · have hm : file.content.take 4 ≠ GLB_MAGIC := by
      rcases h with h | h
      · rw [hn] at h; cases h
      · exact h
    simp [validate_glb_file, hn, hm]
  · have hn2 : chars_ends_with (lower_chars file.name.data) ".glb".data = false := by
      cases hb : chars_ends_with (lower_chars file.name.data) ".glb".data
      · rfl
      · exact absurd hb hn
    simp [validate_glb_file, hn2]

/-- C6 witness: a file with the right extension but the wrong magic bytes, and
a stub validator response: nothing is created or invoked. -/
theorem c6_early_reject_witness :
    (validate_glb_file { name := "m.glb", content := [0, 1, 2, 3] }
        ValidatorResponse.unavailable).tempFileCreated = false ∧
    (validate_glb_file { name := "m.glb", content := [0, 1, 2, 3] }
        ValidatorResponse.unavailable).validatorInvoked = false ∧
    ((validate_glb_file { name := "m.glb", content := [0, 1, 2, 3] }
        ValidatorResponse.unavailable).verdict =
        .validationError "Only .glb files are supported." ∨
      (validate_glb_file { name := "m.glb", content := [0, 1, 2, 3] }
        ValidatorResponse.unavailable).verdict =
        .validationError "The uploaded file does not appear to be a valid GLB file.") :=
  c6_early_reject { name := "m.glb", content := [0, 1, 2, 3] } ValidatorResponse.unavailable
    (Or.inr (by decide))

/-! ## C5: error aggregation over a well-formed report -/

/-- C5: for an upload that passes the extension and magic checks and a parsed
report that passes the geometry check (vertexCount ≥ 3, triangleCount ≥ 1):
numErrors > 0 returns the list of (message, pointer) pairs of exactly the
severity-0 issues, with "N/A" for a missing pointer; numErrors = 0 falls
through to the valid verdict. -/
theorem c5_error_aggregation (file : UploadFile) (out : ValidatorReport)
    (info : ReportInfo) (issues : ReportIssues) (v t n : Int) (msgs : List ReportMessage)
    (hname : chars_ends_with (lower_chars file.name.data) ".glb".data = true)
    (hmagic : file.content.take 4 = GLB_MAGIC)
    (hinfo : out.info = some info)
    (hv : info.totalVertexCount = some v) (ht : info.totalTriangleCount = some t)
    (hv3 : 3 ≤ v) (ht1 : 1 ≤ t)
    (hiss : out.issues = some issues) (hn : issues.numErrors = some n) :
    (0 < n → issues.messages = some msgs → (validate_glb_file file (.report out)).verdict =
      .invalidList ((msgs.filter (fun m => m.severity == 0)).map
        (fun m => (m.message, m.pointer.getD "N/A")))) ∧
    (n = 0 → (validate_glb_file file (.report out)).verdict = .validFile) := by
  have hrun : validate_glb_file file (.report out) =
      { verdict := process_report out, tempFileCreated := true,
        tempFileRemoved := true, validatorInvoked := true } := by
    simp [validate_glb_file, hname, hmagic]
  rw [hrun]
  constructor
  · intro hpos hmsgs
    simp [process_report, hinfo, hv, ht, hiss, hn, hmsgs, error_messages,
      show ¬ v < 3 by omega, show ¬ t < 1 by omega, show n > 0 by omega]
  · intro hzero
    simp [process_report, hinfo, hv, ht, hiss, hn,
      show ¬ v < 3 by omega, show ¬ t < 1 by omega, show ¬ n > 0 by omega]

/-- C5 witness: the report with two severity-0 issues (one without a pointer)
yields exactly those two pairs; the zero-error report yields the valid
verdict. -/
theorem c5_error_aggregation_witness :
    (validate_glb_file demoGlb (.report demoReportBad)).verdict =
      .invalidList [("bad accessor", "N/A"), ("bad image", "/images/0")] ∧
    (validate_glb_file demoGlb (.report demoReportGood)).verdict = .validFile := by
  constructor
  · have h := (c5_error_aggregation demoGlb demoReportBad
      { totalVertexCount := some 8, totalTriangleCount := some 12 }
      { numErrors := some 2, messages := some [demoMsgErr1, demoMsgWarn, demoMsgErr2] }
      8 12 2 [demoMsgErr1, demoMsgWarn, demoMsgErr2]
      (by decide) (by decide) rfl rfl rfl (by decide) (by decide) rfl rfl).1
      (by decide) rfl
    exact h.trans (by decide)
  · exact (c5_error_aggregation demoGlb demoReportGood
      { totalVertexCount := some 8, totalTriangleCount := some 12 }
      { numErrors := some 0, messages := none }
      8 12 0 []
      (by decide) (by decide) rfl rfl rfl (by decide) (by decide) rfl rfl).2 rfl

/-! ## C8: fixed page size, out-of-range pages are empty, not errors -/

/-- Every page holds at most RESULTS_PER_API_CALL entries. -/
theorem paginator_page_length_le {α : Type} (l : List α) (p : Int) :
    (paginator_page l p).length ≤ RESULTS_PER_API_CALL := by
  unfold paginator_page
  split
  · simp
  · split
    · simp
    · exact le_trans (List.length_take_le _ _) (le_refl _)

/-- Django's num_pages is at least 1 even for an empty match set. -/
theorem num_pages_pos (count : Nat) : 1 ≤ num_pages count := by
  have h := le_max_left 1 count
  unfold num_pages RESULTS_PER_API_CALL
  omega

/-- C8: pagination uses the fixed page size 20; a page number below 1 or past
the last page is answered with an empty page rather than an error; an in-range
page is the corresponding 20-wide slice; and with 25 matches page 1 has 20
results, page 2 has 5, and page 3 is empty. -/
theorem c8_pagination (models : List AssetRecord) (page_id : Int) :
    (api_paginate models page_id).length ≤ RESULTS_PER_API_CALL ∧
    (page_id < 1 → api_paginate models page_id = []) ∧
    ((num_pages models.length : Int) < page_id → api_paginate models page_id = []) ∧
    (1 ≤ page_id → page_id ≤ (num_pages models.length : Int) →
      api_paginate models page_id =
        ((models.map (fun m => m.model_id)).drop
          ((page_id.toNat - 1) * RESULTS_PER_API_CALL)).take RESULTS_PER_API_CALL) ∧
    api_paginate store25 1 = List.range 20 ∧
    (api_paginate store25 2).length = 5 ∧
    api_paginate store25 3 = [] := by
  refine ⟨?_, ?_, ?_, ?_, by decide, by decide, by decide⟩
  · calc (api_paginate models page_id).length
        = (paginator_page models page_id).length := by simp [api_paginate]
      _ ≤ RESULTS_PER_API_CALL := paginator_page_length_le _ _
  · intro h
    simp [api_paginate, paginator_page, h]
  · intro h
    have hp := num_pages_pos models.length
    by_cases h1 : page_id < 1
    · simp [api_paginate, paginator_page, h1]
    · simp [api_paginate, paginator_page, h1, h]
  · intro h1 h2
    have hn1 : ¬ page_id < 1 := by omega
    have hn2 : ¬ (num_pages models.length : Int) < page_id := by omega
    simp [api_paginate, paginator_page, hn1, hn2, List.map_take, List.map_drop]

/-! ## Membership characterizations of the query stages -/

/-- Membership in the visibility stage. -/
theorem mem_visible_filter {is_admin : Bool} {l : List AssetRecord} {m : AssetRecord} :
    m ∈ visible_filter is_admin l ↔ m ∈ l ∧ (is_admin = false → m.is_hidden = false) := by
  cases is_admin <;> simp [visible_filter, List.mem_filter]

/-- Sorting never changes membership. -/
theorem mem_order_by {l : List AssetRecord} {m : AssetRecord} :
    m ∈ order_by_model_id l ↔ m ∈ l :=
  (List.perm_insertionSort idLe l).mem_iff

/-- Membership in the geographic filter. -/
theorem mem_range_filter {models : List AssetRecord} {la lo d : ℝ} {m : AssetRecord} :
    m ∈ range_filter models la lo d ↔ m ∈ models ∧ in_box (range_box la lo d) m := by
  simp [range_filter, List.mem_filter]

/-- Membership through a fold of filters: all the filters must pass. -/
theorem mem_filter_fold {β : Type} (f : β → AssetRecord → Bool) :
    ∀ (l : List β) (init : List AssetRecord) (m : AssetRecord),
      m ∈ l.foldl (fun acc b => acc.filter (f b)) init ↔
        m ∈ init ∧ ∀ b ∈ l, f b m = true
  | [], init, m => by simp
  | b :: t, init, m => by
    rw [List.foldl_cons, mem_filter_fold f t]
    simp only [List.mem_filter, List.mem_cons]
    constructor
    · rintro ⟨⟨h1, h2⟩, h3⟩
      refine ⟨h1, ?_⟩
      rintro b2 (rfl | hb2)
      · exact h2
      · exact h3 b2 hb2
    · rintro ⟨h1, h2⟩
      exact ⟨⟨h1, h2 b (Or.inl rfl)⟩, fun b2 hb2 => h2 b2 (Or.inr hb2)⟩

/-- Membership in the author stage. -/
theorem mem_author_stage {author : Option String} {l : List AssetRecord} {m : AssetRecord} :
    m ∈ author_stage author l ↔
      m ∈ l ∧ (author.getD "" ≠ "" → m.author = author.getD "") := by
  unfold author_stage
  by_cases h : author.getD "" ≠ ""
  · rw [if_pos h]
    simp [List.mem_filter, h]
  · rw [if_neg h]
    simp only [ne_eq, not_not] at h
    simp [h]

/-- Membership in the geo stage: the box test applies only when lat, lon and
range are all present. -/
theorem mem_geo_stage {lat lon dist : Option ℝ} {l : List AssetRecord} {m : AssetRecord} :
    m ∈ geo_stage lat lon dist l ↔
      m ∈ l ∧ (∀ la lo d, lat = some la → lon = some lo → dist = some d →
        in_box (range_box la lo d) m) := by
  cases lat <;> cases lon <;> cases dist <;>
    simp [geo_stage, mem_range_filter]

/-- Membership in the title stage. -/
theorem mem_title_stage {title : Option String} {l : List AssetRecord} {m : AssetRecord} :
    m ∈ title_stage title l ↔
      m ∈ l ∧ (title.getD "" ≠ "" → icontains m.title (title.getD "") = true) := by
  unfold title_stage
  by_cases h : title.getD "" ≠ ""
  · rw [if_pos h]
    simp [List.mem_filter, h]
  · rw [if_neg h]
    simp only [ne_eq, not_not] at h
    simp [h]

/-- Membership in the tags stage: every requested (key, value) pair must be in
the record's tag map. -/
theorem mem_tags_stage {tags : Option (List (String × String))} {l : List AssetRecord}
    {m : AssetRecord} :
    m ∈ tags_stage tags l ↔
      m ∈ l ∧ ∀ kv ∈ tags.getD [], tag_contains m kv.1 kv.2 = true := by
  unfold tags_stage
  exact mem_filter_fold (fun kv m => tag_contains m kv.1 kv.2) (tags.getD []) l m

/-- Membership in the categories stage: every requested name must be among the
record's categories. -/
theorem mem_categories_stage {categories : Option (List String)} {l : List AssetRecord}
    {m : AssetRecord} :
    m ∈ categories_stage categories l ↔
      m ∈ l ∧ ∀ c ∈ categories.getD [], in_category m c = true := by
  unfold categories_stage
  exact mem_filter_fold (fun c m => in_category m c) (categories.getD []) l m

/-- The non-visibility match criteria of a full-search body, as the source
applies them. -/
def full_criteria (body : SearchBody) (r : AssetRecord) : Prop :=
  (body.author.getD "" ≠ "" → r.author = body.author.getD "") ∧
  (∀ la lo d, body.lat = some la → body.lon = some lo → body.range = some d →
    in_box (range_box la lo d) r) ∧
  (body.title.getD "" ≠ "" → icontains r.title (body.title.getD "") = true) ∧
  (∀ kv ∈ body.tags.getD ([] : List (String × String)), tag_contains r kv.1 kv.2 = true) ∧
  (∀ c ∈ body.categories.getD ([] : List String), in_category r c = true)

/-- The matched set of search_full: latest, visibility for non-admins, and the
body's criteria. -/
theorem mem_search_full_models {store : List AssetRecord} {users : List String}
    {is_admin : Bool} {body : SearchBody} {L : List AssetRecord} {r : AssetRecord}
    (h : search_full_models store users is_admin body = .ok L) :
    r ∈ L ↔ r ∈ store ∧ r.latest = true ∧ (is_admin = false → r.is_hidden = false) ∧
      full_criteria body r := by
  unfold search_full_models at h
  split at h
  · exact absurd h (by simp)
  · injection h with h
    subst h
    simp only [mem_order_by, mem_categories_stage, mem_tags_stage, mem_title_stage,
      mem_geo_stage, mem_author_stage, mem_visible_filter, List.mem_filter, full_criteria]
    tauto

/-- The matched set of lookup_tag. -/
theorem mem_lookup_tag_models {store : List AssetRecord} {a : Bool} {k v : String}
    {r : AssetRecord} :
    r ∈ lookup_tag_models store a k v ↔
      r ∈ store ∧ (a = false → r.is_hidden = false) ∧ r.latest = true ∧
        tag_contains r k v = true := by
  simp only [lookup_tag_models, mem_visible_filter, mem_order_by, List.mem_filter,
    Bool.and_eq_true]
  tauto

/-- The matched set of lookup_category. -/
theorem mem_lookup_category_models {store : List AssetRecord} {a : Bool} {c : String}
    {r : AssetRecord} :
    r ∈ lookup_category_models store a c ↔
      r ∈ store ∧ (a = false → r.is_hidden = false) ∧ r.latest = true ∧
        in_category r c = true := by
  simp only [lookup_category_models, mem_visible_filter, List.mem_filter, Bool.and_eq_true]
  tauto

/-- The matched set of lookup_author. -/
theorem mem_lookup_author_models {store : List AssetRecord} {a : Bool} {uid : String}
    {r : AssetRecord} :
    r ∈ lookup_author_models store a uid ↔
      r ∈ store ∧ (a = false → r.is_hidden = false) ∧ r.author = uid ∧
        r.latest = true := by
  simp only [lookup_author_models, mem_visible_filter, List.mem_filter, Bool.and_eq_true,
    beq_iff_eq]
  tauto

/-- The matched set of search_title. -/
theorem mem_search_title_models {store : List AssetRecord} {a : Bool} {t : String}
    {r : AssetRecord} :
    r ∈ search_title_models store a t ↔
      r ∈ store ∧ (a = false → r.is_hidden = false) ∧ r.latest = true ∧
        icontains r.title t = true := by
  simp only [search_title_models, mem_visible_filter, List.mem_filter, Bool.and_eq_true]
  tauto

/-- The matched set of search_range. -/
theorem mem_search_range_models {store : List AssetRecord} {a : Bool} {la lo d : ℝ}
    {r : AssetRecord} :
    r ∈ search_range_models store a la lo d ↔
      r ∈ store ∧ (a = false → r.is_hidden = false) ∧ r.latest = true ∧
        in_box (range_box la lo d) r := by
  simp only [search_range_models, mem_range_filter, mem_visible_filter, List.mem_filter]
  tauto

/-! ## C2: the visibility policy across every query operation -/

/-- C2: for every query operation (tag, category, author, title, range and
full search), a hidden record never appears in a non-privileged caller's
matched set, and does appear in a privileged caller's matched set whenever the
operation's other criteria match. -/
theorem c2_hidden_visibility (store : List AssetRecord) (users : List String)
    (r : AssetRecord) (hh : r.is_hidden = true) :
    (∀ k v, r ∉ lookup_tag_models store false k v) ∧
    (∀ k v, r ∈ store → r.latest = true → tag_contains r k v = true →
      r ∈ lookup_tag_models store true k v) ∧
    (∀ c, r ∉ lookup_category_models store false c) ∧
    (∀ c, r ∈ store → r.latest = true → in_category r c = true →
      r ∈ lookup_category_models store true c) ∧
    (∀ uid, r ∉ lookup_author_models store false uid) ∧
    (∀ uid, r ∈ store → r.author = uid → r.latest = true →
      r ∈ lookup_author_models store true uid) ∧
    (∀ t, r ∉ search_title_models store false t) ∧
    (∀ t, r ∈ store → r.latest = true → icontains r.title t = true →
      r ∈ search_title_models store true t) ∧
    (∀ la lo d, r ∉ search_range_models store false la lo d) ∧
    (∀ la lo d, r ∈ store → r.latest = true → in_box (range_box la lo d) r →
      r ∈ search_range_models store true la lo d) ∧
    (∀ body L, search_full_models store users false body = .ok L → r ∉ L) ∧
    (∀ body L, search_full_models store users true body = .ok L →
      r ∈ store → r.latest = true → full_criteria body r → r ∈ L) := by
  have hfalse : ∀ p : Prop, (false = false → r.is_hidden = false) → p → p := by
    intro p hv hp
    exact hp
  refine ⟨?_, ?_, ?_, ?_, ?_, ?_, ?_, ?_, ?_, ?_, ?_, ?_⟩
  · intro k v hmem
    have := (mem_lookup_tag_models.mp hmem).2.1 rfl
    rw [this] at hh
    cases hh
  · intro k v hs hl ht
    exact mem_lookup_tag_models.mpr ⟨hs, by simp, hl, ht⟩
  · intro c hmem
    have := (mem_lookup_category_models.mp hmem).2.1 rfl
    rw [this] at hh
    cases hh
  · intro c hs hl hc
    exact mem_lookup_category_models.mpr ⟨hs, by simp, hl, hc⟩
  · intro uid hmem
    have := (mem_lookup_author_models.mp hmem).2.1 rfl
    rw [this] at hh
    cases hh
  · intro uid hs ha hl
    exact mem_lookup_author_models.mpr ⟨hs, by simp, ha, hl⟩
  · intro t hmem
    have := (mem_search_title_models.mp hmem).2.1 rfl
    rw [this] at hh
    cases hh
  · intro t hs hl ht
    exact mem_search_title_models.mpr ⟨hs, by simp, hl, ht⟩
  · intro la lo d hmem
    have := (mem_search_range_models.mp hmem).2.1 rfl
    rw [this] at hh
    cases hh
  · intro la lo d hs hl hb
    exact mem_search_range_models.mpr ⟨hs, by simp, hl, hb⟩
  · intro body L hok hmem
    have := ((mem_search_full_models hok).mp hmem).2.2.1 rfl
    rw [this] at hh
    cases hh
  · intro body L hok hs hl hc
    exact (mem_search_full_models hok).mpr ⟨hs, hl, by simp, hc⟩

/-- A hidden record used to exercise the visibility policy. -/
def hiddenRec : AssetRecord :=
  { model_id := 7, revision := 1, latest := true, title := "Secret",
    tags := [("color", "red")], categories := ["landmark"], author := "alice",
    location := none, is_hidden := true }

/-- A two-record store holding the hidden record and a visible one. -/
def demoStore : List AssetRecord := [hiddenRec, plainRec 3]

/-- C2 witness: in a concrete store the hidden record is absent from the
non-privileged tag lookup and present in the privileged one. -/
theorem c2_hidden_visibility_witness :
    hiddenRec ∉ lookup_tag_models demoStore false "color" "red" ∧
    hiddenRec ∈ lookup_tag_models demoStore true "color" "red" := by
  have h := c2_hidden_visibility demoStore [] hiddenRec rfl
  exact ⟨h.1 "color" "red", h.2.1 "color" "red" (by decide) rfl (by decide)⟩

/-! ## C3: ordering before pagination -/

/-- The sort stage leaves identifiers ascending. -/
theorem sorted_ids_order_by (l : List AssetRecord) :
    List.Sorted (fun a b : Nat => a ≤ b)
      ((order_by_model_id l).map (fun m => m.model_id)) := by
  have h := List.sorted_insertionSort idLe l
  rw [List.Sorted, List.pairwise_map]
  exact h

/-- The visibility stage only drops elements. -/
theorem visible_filter_sublist (is_admin : Bool) (l : List AssetRecord) :
    (visible_filter is_admin l).Sublist l := by
  cases is_admin
  · exact List.filter_sublist l
  · exact List.Sublist.refl l

/-- A record with category "landmark" and identifier `i`. -/
def catRec (i : Nat) : AssetRecord :=
  { model_id := i, revision := 1, latest := true, title := "", tags := [],
    categories := ["landmark"], author := "", location := none, is_hidden := false }

/-- C3 counterexample: a category lookup on a store whose iteration order is
[id 2, id 1] returns the identifiers [2, 1] — the matched records are not
sorted by identifier before pagination. -/
theorem c3_ordering_counterexample :
    lookup_category_models [catRec 2, catRec 1] false "landmark" = [catRec 2, catRec 1] ∧
    lookup_category [catRec 2, catRec 1] false "landmark" 1 = [2, 1] ∧
    ¬ List.Sorted (fun a b : Nat => a ≤ b) [2, 1] := by
  refine ⟨by decide, by decide, by decide⟩

/-- C3 amended: only the tag lookup and the full search sort by identifier
ascending before pagination; the category, author, title and range queries
paginate the matched records in the record store's iteration order (their
matched set is a sublist of the store). -/
theorem c3_ordering_amended (store : List AssetRecord) (users : List String)
    (is_admin : Bool) (k v c uid t : String) (la lo d : ℝ) (body : SearchBody) :
    List.Sorted (fun a b : Nat => a ≤ b)
      ((lookup_tag_models store is_admin k v).map (fun m => m.model_id)) ∧
    (∀ L, search_full_models store users is_admin body = .ok L →
      List.Sorted (fun a b : Nat => a ≤ b) (L.map (fun m => m.model_id))) ∧
    (lookup_category_models store is_admin c).Sublist store ∧
    (lookup_author_models store is_admin uid).Sublist store ∧
    (search_title_models store is_admin t).Sublist store ∧
    (search_range_models store is_admin la lo d).Sublist store := by
  refine ⟨?_, ?_, ?_, ?_, ?_, ?_⟩
  · have hsub : (lookup_tag_models store is_admin k v).Sublist
        (order_by_model_id (store.filter (fun m => m.latest && tag_contains m k v))) :=
      visible_filter_sublist _ _
    exact (sorted_ids_order_by _).sublist (hsub.map (fun m => m.model_id))
  · intro L h
    unfold search_full_models at h
    split at h
    · exact absurd h (by simp)
    · injection h with h
      subst h
      exact sorted_ids_order_by _
  · exact ((visible_filter_sublist _ _).trans (List.filter_sublist store))
  · exact ((visible_filter_sublist _ _).trans (List.filter_sublist store))
  · exact ((visible_filter_sublist _ _).trans (List.filter_sublist store))
  · unfold search_range_models range_filter
    exact ((List.filter_sublist _).trans
      ((visible_filter_sublist _ _).trans (List.filter_sublist store)))

/-! ## C9: unknown projection fields -/

/-- A format string outside the closed field set projects to none (the raise
in api.py line 278). -/
theorem project_field_unknown (m : AssetRecord) (s : String)
    (h : s ∉ ["id", "latitude", "longitude", "title"]) : project_field m s = none := by
  simp only [List.mem_cons, List.not_mem_nil, or_false, not_or] at h
  obtain ⟨h1, h2, h3, h4⟩ := h
  simp [project_field, h1, h2, h3, h4]

/-- A tuple containing any unknown field name raises, aborting the record. -/
theorem project_record_unknown (m : AssetRecord) :
    ∀ (fmt : List String) (s : String), s ∈ fmt →
      s ∉ ["id", "latitude", "longitude", "title"] → project_record fmt m = none
  | [], s, hs, _ => absurd hs (List.not_mem_nil s)
  | a :: t, s, hs, h => by
    unfold project_record collect_fields
    rcases List.mem_cons.mp hs with rfl | hs2
    · rw [project_field_unknown m s h]
    · have ht := project_record_unknown m t s hs2 h
      unfold project_record at ht
      rw [ht]
      cases project_field m a <;> rfl

/-- On a non-empty page the first record already aborts the whole list. -/
theorem project_page_cons_unknown {fmt : List String} {s : String} (hs : s ∈ fmt)
    (h : s ∉ ["id", "latitude", "longitude", "title"]) (m : AssetRecord)
    (rest : List AssetRecord) : project_page fmt (m :: rest) = none := by
  unfold project_page
  rw [project_record_unknown m fmt s hs h]

/-- C9 amended: with a projection list containing an unknown field name, the
full search fails with the 'Invalid format specifier' rejection whenever the
requested page is non-empty; when the page is empty the comprehension never
runs and an empty tuple list is returned without error. -/
theorem c9_projection_amended (store : List AssetRecord) (users : List String)
    (is_admin : Bool) (body : SearchBody) (fmt : List String) (s : String)
    (L : List AssetRecord)
    (hfmt : body.format = some fmt) (hs : s ∈ fmt)
    (hunknown : s ∉ ["id", "latitude", "longitude", "title"])
    (hok : search_full_models store users is_admin body = .ok L) :
    (paginator_page L body.page = [] → search_full store users is_admin body = .tuples []) ∧
    (paginator_page L body.page ≠ [] →
      search_full store users is_admin body = .badRequest "Invalid format specifier") := by
  have hne : fmt ≠ [] := by
    rintro rfl
    cases hs
  constructor
  · intro hpage
    unfold search_full
    rw [hok]
    simp [hfmt, hne, hpage, project_page]
  · intro hpage
    obtain ⟨m, rest, hL⟩ : ∃ m rest, paginator_page L body.page = m :: rest := by
      cases hp : paginator_page L body.page
      · exact absurd hp hpage
      · exact ⟨_, _, rfl⟩
    unfold search_full
    rw [hok]
    simp [hfmt, hne, hL, project_page_cons_unknown hs hunknown]

/-- A full-search body requesting the unknown projection field "bogus". -/
def bogusBody : SearchBody :=
  { author := none, lat := none, lon := none, range := none, title := none,
    tags := none, categories := none, page := 1, format := some ["bogus"] }

/-- C9 counterexample: with zero matched records, the "bogus" projection is
not rejected — the query returns an empty tuple list, not the
'Invalid format specifier' failure the claim requires for every match count. -/
theorem c9_projection_counterexample :
    search_full [] [] false bogusBody = ApiResponse.tuples [] ∧
    (search_full [] [] false bogusBody = ApiResponse.badRequest "Invalid format specifier" →
      False) := by
  have h1 : search_full [] [] false bogusBody = ApiResponse.tuples [] := by rfl
  refine ⟨h1, fun h2 => ?_⟩
  rw [h1] at h2
  cases h2

/-- C9 witness: on a store with one matching record the "bogus" projection
aborts the whole page with the rejection. -/
theorem c9_projection_witness :
    search_full [plainRec 1] [] true bogusBody =
      ApiResponse.badRequest "Invalid format specifier" :=
  (c9_projection_amended [plainRec 1] [] true bogusBody ["bogus"] "bogus" [plainRec 1]
    rfl (by decide) (by decide) rfl).2 (by decide)

/-! ## C10: partially supplied geo parameters -/

/-- If lat, lon and range are not all present, the geo stage is a no-op. -/
theorem geo_stage_skip {lat lon dist : Option ℝ}
    (h : ¬ (lat.isSome = true ∧ lon.isSome = true ∧ dist.isSome = true)) :
    ∀ models : List AssetRecord, geo_stage lat lon dist models = models := by
  intro models
  cases lat <;> cases lon <;> cases dist <;> simp_all [geo_stage]

/-- C10: a full-search body in which the three geo parameters are not all
present applies no geographic filter and raises no error: both the matched
set and the response equal those of the same body with the geo parameters
omitted entirely. -/
theorem c10_partial_geo (store : List AssetRecord) (users : List String) (is_admin : Bool)
    (body : SearchBody)
    (h : ¬ (body.lat.isSome = true ∧ body.lon.isSome = true ∧ body.range.isSome = true)) :
    search_full_models store users is_admin body =
      search_full_models store users is_admin
        { body with lat := none, lon := none, range := none } ∧
    search_full store users is_admin body =
      search_full store users is_admin
        { body with lat := none, lon := none, range := none } := by
  have hms : search_full_models store users is_admin body =
      search_full_models store users is_admin
        { body with lat := none, lon := none, range := none } := by
    unfold search_full_models
    rw [geo_stage_skip h]
    rfl
  refine ⟨hms, ?_⟩
  unfold search_full
  rw [hms]

/-- A body giving lat but neither lon nor range. -/
noncomputable def partialGeoBody : SearchBody :=
  { author := none, lat := some 12, lon := none, range := none, title := none,
    tags := none, categories := none, page := 1, format := none }

/-- C10 witness: the concrete body with only lat present queries exactly as
the body with no geo parameters at all. -/
theorem c10_partial_geo_witness :
    search_full_models demoStore [] false partialGeoBody =
      search_full_models demoStore [] false
        { partialGeoBody with lat := none, lon := none, range := none } ∧
    search_full demoStore [] false partialGeoBody =
      search_full demoStore [] false
        { partialGeoBody with lat := none, lon := none, range := none } :=
  c10_partial_geo demoStore [] false partialGeoBody (by simp [partialGeoBody])

/-! ## C1 and C4: evaluating the bounding-box computation -/

/-- PLANETARY_RADIUS is positive. -/
theorem planetary_radius_pos : (0 : ℝ) < PLANETARY_RADIUS := by
  unfold PLANETARY_RADIUS
  norm_num

/-- Degree conversion is strictly monotone. -/
theorem math_degrees_lt {x y : ℝ} (h : x < y) : math_degrees x < math_degrees y := by
  unfold math_degrees
  have hpi := Real.pi_pos
  exact mul_lt_mul_of_pos_right h (by positivity)

/-- If either degree range of the box is inverted, the conjunctive gte/lte
filter matches nothing. -/
theorem range_filter_nil_of_inverted (models : List AssetRecord) (la lo d : ℝ)
    (h : (range_box la lo d).max_latitude < (range_box la lo d).min_latitude ∨
      (range_box la lo d).max_longitude < (range_box la lo d).min_longitude) :
    range_filter models la lo d = [] := by
  unfold range_filter
  rw [List.filter_eq_nil_iff]
  intro m _
  simp only [decide_eq_true_eq]
  intro hbox
  unfold in_box at hbox
  cases hloc : m.location with
  | none => rw [hloc] at hbox; exact hbox
  | some loc =>
    rw [hloc] at hbox
    obtain ⟨h1, h2, h3, h4⟩ := hbox
    rcases h with h | h <;> linarith

/-- Paginating an empty match set gives the empty page on every page number. -/
theorem api_paginate_nil (p : Int) : api_paginate [] p = [] := by
  unfold api_paginate paginator_page
  split
  · rfl
  · split
    · rfl
    · simp

/-- C1 amended: whenever the computed box wraps the antimeridian — its
min_longitude exceeds its max_longitude — the source's naive gte/lte
comparison makes the longitude constraint unsatisfiable, so range_filter
matches no record at all (instead of the two OR'd ranges the spec demands). -/
theorem c1_wrapped_box_matches_nothing (models : List AssetRecord) (la lo d : ℝ)
    (h : (range_box la lo d).max_longitude < (range_box la lo d).min_longitude) :
    range_filter models la lo d = [] :=
  range_filter_nil_of_inverted models la lo d (Or.inr h)

/-- A distance whose angular radius is exactly 3 degrees (pi/60 radians). -/
noncomputable def C1_DIST : ℝ := 6371e3 * (Real.pi / 60)

/-- A record on the equator at longitude -179, two degrees across the
antimeridian from the query center (0, 179). -/
def antiRec : AssetRecord :=
  { model_id := 9, revision := 1, latest := true, title := "", tags := [],
    categories := [], author := "", location := some (0, -179), is_hidden := false }

/-- The box computed for center (0, 179) and a 3-degree radius: the latitude
band is [-3, 3] and the longitude bounds wrap to min 176, max -178. -/
theorem range_box_c1 : range_box 0 179 C1_DIST =
    { min_latitude := -3, max_latitude := 3, min_longitude := 176,
      max_longitude := -178 } := by
  have hpi := Real.pi_pos
  have hpne : (Real.pi : ℝ) ≠ 0 := ne_of_gt hpi
  have har : angular_radius C1_DIST = Real.pi / 60 := by
    unfold angular_radius C1_DIST PLANETARY_RADIUS
    norm_num
  have hlat : math_radians (0 : ℝ) = 0 := by
    unfold math_radians
    ring
  have hlon : math_radians (179 : ℝ) = 179 * (Real.pi / 180) := by
    unfold math_radians
    rfl
  have hcond : math_radians (0 : ℝ) - angular_radius C1_DIST > -(Real.pi / 2) ∧
      math_radians (0 : ℝ) + angular_radius C1_DIST < Real.pi / 2 := by
    rw [hlat, har]
    constructor <;> linarith
  have hdlon : d_longitude (math_radians (0 : ℝ)) (angular_radius C1_DIST) =
      Real.pi / 60 := by
    rw [hlat, har]
    unfold d_longitude
    rw [Real.cos_zero, div_one]
    exact Real.arcsin_sin (by linarith) (by linarith)
  unfold range_box
  rw [if_pos hcond, hdlon, hlat, hlon, har]
  have hwmin : wrap_min (179 * (Real.pi / 180) - Real.pi / 60) =
      179 * (Real.pi / 180) - Real.pi / 60 := by
    unfold wrap_min
    rw [if_neg]
    intro hcontra
    nlinarith
  have hwmax : wrap_max (179 * (Real.pi / 180) + Real.pi / 60) =
      179 * (Real.pi / 180) + Real.pi / 60 - 2 * Real.pi := by
    unfold wrap_max
    rw [if_pos]
    nlinarith
  rw [hwmin, hwmax]
  unfold math_degrees
  simp only [GeoBox.mk.injEq]
  refine ⟨?_, ?_, ?_, ?_⟩ <;> field_simp <;> ring

/-- C1 counterexample: for center (0, 179) with a 3-degree radius the box
wraps (min_longitude 176 > max_longitude -178), and the record at longitude
-179 — two degrees from the center across the antimeridian, well inside the
radius — is NOT matched: the filter applies the naive inverted gte/lte
comparison and returns nothing. -/
theorem c1_antimeridian_counterexample :
    (range_box 0 179 C1_DIST).min_longitude = 176 ∧
    (range_box 0 179 C1_DIST).max_longitude = -178 ∧
    (range_box 0 179 C1_DIST).max_longitude < (range_box 0 179 C1_DIST).min_longitude ∧
    range_filter [antiRec] 0 179 C1_DIST = [] ∧
    search_range [antiRec] true 0 179 C1_DIST 1 = [] := by
  have hb := range_box_c1
  have hempty : range_filter [antiRec] 0 179 C1_DIST = [] :=
    range_filter_nil_of_inverted [antiRec] 0 179 C1_DIST (Or.inr (by rw [hb]; norm_num))
  refine ⟨by rw [hb], by rw [hb], by rw [hb]; norm_num, hempty, ?_⟩
  unfold search_range
  have hm : search_range_models [antiRec] true 0 179 C1_DIST = [] := by
    unfold search_range_models
    have hv : visible_filter true (List.filter (fun m => m.latest) [antiRec]) = [antiRec] :=
      rfl
    rw [hv]
    exact hempty
  rw [hm, api_paginate_nil]

/-- C1 witness: the wrapped box of the antimeridian query matches nothing. -/
theorem c1_wrapped_box_witness : range_filter [antiRec] 0 179 C1_DIST = [] :=
  c1_wrapped_box_matches_nothing [antiRec] 0 179 C1_DIST (by rw [range_box_c1]; norm_num)

/-! ## C4: no validation of radius or latitude -/

/-- The wrap adjustments as plain conditional identities. -/
theorem wrap_min_id {x : ℝ} (h : ¬ x < -Real.pi) : wrap_min x = x := if_neg h

/-- The max-longitude wrap leaves a value of at most pi unchanged. -/
theorem wrap_max_id {x : ℝ} (h : ¬ x > Real.pi) : wrap_max x = x := if_neg h

/-- A record on the equator at longitude 0 with identifier 4. -/
def originRec : AssetRecord :=
  { model_id := 4, revision := 1, latest := true, title := "", tags := [],
    categories := [], author := "", location := some (0, 0), is_hidden := false }

/-- The box computed for the contract-violating radius 0 at center (0, 0): a
degenerate point box, not a rejection. -/
theorem range_box_origin : range_box 0 0 0 =
    { min_latitude := 0, max_latitude := 0, min_longitude := 0, max_longitude := 0 } := by
  have hpi := Real.pi_pos
  have hpne : (Real.pi : ℝ) ≠ 0 := ne_of_gt hpi
  have har : angular_radius (0 : ℝ) = 0 := by
    unfold angular_radius
    exact zero_div _
  have hlat : math_radians (0 : ℝ) = 0 := by
    unfold math_radians
    ring
  have hcond : math_radians (0 : ℝ) - angular_radius 0 > -(Real.pi / 2) ∧
      math_radians (0 : ℝ) + angular_radius 0 < Real.pi / 2 := by
    rw [hlat, har]
    constructor <;> linarith
  have hdlon : d_longitude (math_radians (0 : ℝ)) (angular_radius 0) = 0 := by
    rw [hlat, har]
    unfold d_longitude
    rw [Real.sin_zero, zero_div, Real.arcsin_zero]
  unfold range_box
  rw [if_pos hcond, hdlon, hlat, har]
  rw [wrap_min_id (by linarith), wrap_max_id (by linarith)]
  unfold math_degrees
  simp only [GeoBox.mk.injEq]
  refine ⟨?_, ?_, ?_, ?_⟩ <;> field_simp

/-- The box computed for the contract-violating latitude 100 with radius 0:
the pole branch clamps max_latitude to 90 but leaves min_latitude at 100 —
an inverted band, still not a rejection. -/
theorem range_box_lat100 : range_box 100 0 0 =
    { min_latitude := 100, max_latitude := 90, min_longitude := -180,
      max_longitude := 180 } := by
  have hpi := Real.pi_pos
  have hpne : (Real.pi : ℝ) ≠ 0 := ne_of_gt hpi
  have har : angular_radius (0 : ℝ) = 0 := by
    unfold angular_radius
    exact zero_div _
  have hlat : math_radians (100 : ℝ) = 100 * (Real.pi / 180) := by
    unfold math_radians
    rfl
  have hnot : ¬ (math_radians (100 : ℝ) - angular_radius 0 > -(Real.pi / 2) ∧
      math_radians (100 : ℝ) + angular_radius 0 < Real.pi / 2) := by
    rw [hlat, har]
    rintro ⟨-, h2⟩
    linarith
  unfold range_box
  rw [if_neg hnot, hlat, har]
  rw [max_eq_left (by linarith), min_eq_right (by linarith)]
  unfold math_degrees
  simp only [GeoBox.mk.injEq]
  refine ⟨?_, ?_, ?_, ?_⟩ <;> field_simp <;> ring

/-- With the degenerate radius-0 box at (0, 0), the record at (0, 0) still
matches. -/
theorem range_filter_origin : range_filter [originRec] 0 0 0 = [originRec] := by
  have hbox : in_box (range_box 0 0 0) originRec := by
    rw [range_box_origin]
    simp [in_box, originRec]
  unfold range_filter
  simp [List.filter_cons, hbox]

/-- With radius 0 at (0, 0) the executed query answers with the matching
identifier. -/
theorem search_range_origin_eval : search_range [originRec] true 0 0 0 1 = [4] := by
  unfold search_range search_range_models
  have hv : visible_filter true (List.filter (fun m => m.latest) [originRec]) =
      [originRec] := rfl
  rw [hv, range_filter_origin]
  decide

/-- With latitude 100 and radius 0 the executed query answers with the
ordinary empty page. -/
theorem search_range_lat100_eval : search_range [originRec] true 100 0 0 1 = [] := by
  unfold search_range search_range_models
  have hv : visible_filter true (List.filter (fun m => m.latest) [originRec]) =
      [originRec] := rfl
  rw [hv, range_filter_nil_of_inverted [originRec] 100 0 0
    (Or.inl (by rw [range_box_lat100]; norm_num)), api_paginate_nil]

/-- Radius 0 at latitude 0 keeps math.asin's argument at 0: no ValueError. -/
theorem no_crash_origin : ¬ range_filter_crashes 0 0 := by
  rintro ⟨-, hno⟩
  apply hno
  have harg : range_asin_arg 0 0 = 0 := by
    unfold range_asin_arg
    have har : angular_radius (0 : ℝ) = 0 := by
      unfold angular_radius
      exact zero_div _
    rw [har, Real.sin_zero, zero_div]
  rw [harg]
  constructor <;> norm_num

/-- Latitude 100 takes the pole branch, so math.asin is never evaluated. -/
theorem no_crash_lat100 : ¬ range_filter_crashes 100 0 := by
  rintro ⟨⟨-, h2⟩, -⟩
  have hpi := Real.pi_pos
  have har : angular_radius (0 : ℝ) = 0 := by
    unfold angular_radius
    exact zero_div _
  have hlat : math_radians (100 : ℝ) = 100 * (Real.pi / 180) := by
    unfold math_radians
    rfl
  rw [hlat, har] at h2
  linarith

/-- C4 counterexample: radius 0 (≤ 0) at center (0, 0) is not rejected — the
bounding box is computed, math.asin stays in its domain, and the executed
query returns the matching identifier; latitude 100 (> 90) is not rejected
either — the pole branch clamps the box and the executed query returns an
ordinary empty page. Neither contract violation produces an InvalidArgument
failure. -/
theorem c4_no_validation_counterexample :
    range_box 0 0 0 =
      { min_latitude := 0, max_latitude := 0, min_longitude := 0, max_longitude := 0 } ∧
    search_range_checked [originRec] true 0 0 0 1 = some [4] ∧
    range_box 100 0 0 =
      { min_latitude := 100, max_latitude := 90, min_longitude := -180,
        max_longitude := 180 } ∧
    search_range_checked [originRec] true 100 0 0 1 = some [] := by
  refine ⟨range_box_origin, ?_, range_box_lat100, ?_⟩
  · unfold search_range_checked
    rw [if_neg no_crash_origin, search_range_origin_eval]
  · unfold search_range_checked
    rw [if_neg no_crash_lat100, search_range_lat100_eval]

/-- A negative radius always inverts the latitude band of the box. -/
theorem range_box_lat_inverted (la lo d : ℝ) (hd : d < 0) :
    (range_box la lo d).max_latitude < (range_box la lo d).min_latitude := by
  have hpi := Real.pi_pos
  have har : angular_radius d < 0 := div_neg_of_neg_of_pos hd planetary_radius_pos
  unfold range_box
  split
  · exact math_degrees_lt (by linarith)
  · refine math_degrees_lt ?_
    have h1 : min (math_radians la + angular_radius d) (Real.pi / 2) ≤
        math_radians la + angular_radius d := min_le_left _ _
    have h2 : math_radians la - angular_radius d ≤
        max (math_radians la - angular_radius d) (-(Real.pi / 2)) := le_max_left _ _
    linarith

/-- At latitude 86 with distance -1274200 m the angular radius is exactly
-1/5, the non-pole branch is taken, and math.asin's argument
sin(-1/5)/cos(86 deg) is below -1: the source raises the uncaught
ValueError. -/
theorem range_filter_crashes_at_86 : range_filter_crashes 86 (-1274200) := by
  have hpi := Real.pi_pos
  have hp3 := Real.pi_gt_three
  have hp4 := Real.pi_lt_four
  have har : angular_radius (-1274200 : ℝ) = -(1 / 5) := by
    unfold angular_radius PLANETARY_RADIUS
    norm_num
  have hlat : math_radians (86 : ℝ) = 86 * (Real.pi / 180) := by
    unfold math_radians
    rfl
  have hcos : Real.cos (86 * (Real.pi / 180)) = Real.sin (Real.pi / 45) := by
    rw [show (86 : ℝ) * (Real.pi / 180) = Real.pi / 2 - Real.pi / 45 by ring]
    exact Real.cos_pi_div_two_sub _
  have hs45 : 0 < Real.sin (Real.pi / 45) :=
    Real.sin_pos_of_pos_of_lt_pi (by positivity) (by linarith)
  have hmono : Real.sin (Real.pi / 45) < Real.sin (1 / 5) := by
    apply Real.strictMonoOn_sin
    · exact Set.mem_Icc.mpr ⟨by linarith, by linarith⟩
    · exact Set.mem_Icc.mpr ⟨by linarith, by linarith⟩
    · linarith
  constructor
  · constructor
    · rw [hlat, har]
      linarith
    · rw [hlat, har]
      linarith
  · intro hok
    have harg : range_asin_arg 86 (-1274200) =
        -Real.sin (1 / 5) / Real.sin (Real.pi / 45) := by
      unfold range_asin_arg
      rw [har, hlat, hcos, Real.sin_neg]
    have hlt : range_asin_arg 86 (-1274200) < -1 := by
      rw [harg, div_lt_iff₀ hs45]
      linarith
    have h1 := hok.1
    linarith

/-- C4 amended: search_range never raises an InvalidArgument rejection.
Radius ≤ 0 and |latitude| > 90 proceed into the bounding-box computation, and
the executed query either answers with an ordinary page of at most 20
identifiers — always the empty page when the radius is negative, because the
computed latitude band is inverted — or, when the non-pole branch hands
math.asin an argument outside [-1, 1] (reachable only with a negative radius,
e.g. latitude 86 with distance -1274200 m), dies with math.asin's uncaught
ValueError; in no case is an InvalidArgument failure produced. -/
theorem c4_geo_no_validation (store : List AssetRecord) (is_admin : Bool)
    (la lo d : ℝ) (page_id : Int) :
    (∀ ids, search_range_checked store is_admin la lo d page_id = some ids →
      ids.length ≤ RESULTS_PER_API_CALL) ∧
    (d < 0 → ∀ ids, search_range_checked store is_admin la lo d page_id = some ids →
      ids = []) ∧
    search_range_checked store is_admin 86 0 (-1274200) page_id = none := by
  have hlen : (search_range store is_admin la lo d page_id).length ≤
      RESULTS_PER_API_CALL := by
    unfold search_range api_paginate
    rw [List.length_map]
    exact paginator_page_length_le _ _
  have hneg : d < 0 → search_range store is_admin la lo d page_id = [] := by
    intro hd
    unfold search_range search_range_models
    rw [range_filter_nil_of_inverted _ _ _ _ (Or.inl (range_box_lat_inverted la lo d hd)),
      api_paginate_nil]
  refine ⟨?_, ?_, ?_⟩
  · intro ids hids
    unfold search_range_checked at hids
    split at hids
    · exact absurd hids (by simp)
    · injection hids with hids
      rw [← hids]
      exact hlen
  · intro hd ids hids
    unfold search_range_checked at hids
    split at hids
    · exact absurd hids (by simp)
    · injection hids with hids
      rw [← hids]
      exact hneg hd
  · unfold search_range_checked
    rw [if_pos range_filter_crashes_at_86]
